import Mathlib

/-!
Shallow embedding of the interview session / turn-pipeline controller of
`empathy-interview-frontend` (`src/features/interview/InterviewScreen.jsx`)
and of the feedback-report normalizer (`src/adapters/feedback.js`).

Conventions of the embedding:
* A remote call that can throw is modelled as an `Option`-valued field of an
  `Env` record: `none` means the call throws, `some v` means it returns `v`.
* React state setters become functional updates of an explicit `ScreenState`.
* `URL.createObjectURL` / `base64ToBlob` are modelled by deterministic string
  functions (object identity of browser blobs is irrelevant to the claims;
  allocation of a fresh `Audio` element is tracked by a generation counter).
-/

namespace Interview

/-- One conversation turn, as built by `processAudio` in `InterviewScreen.jsx`
(field names follow the source object literal). -/
structure Turn where
  id : String
  student_question : String
  student_audio_url : Option String
  persona_response : String
  persona_audio_url : Option String
  turn_number : Option Nat
  timestamp : String
deriving Repr, DecidableEq

/-- Result shape of `apiService.getPersonaReply`: `{ reply, turn_number }`.
`reply = none` models a missing/null reply field (`replyResult.reply || ''`);
`turn_number = none` models an absent or falsy turn number. -/
structure ReplyResult where
  reply : Option String
  turn_number : Option Nat
deriving Repr, DecidableEq

/-- Result shape of `apiService.generateTTS`: either inline base64 audio or a
direct audio URL (`none` fields model absent/falsy values). -/
structure TtsResult where
  audio_base64 : Option String
  audio_url : Option String
deriving Repr, DecidableEq

/-- The external conversational service, one pipeline run's worth of answers.
Each field is one remote operation; `none` means that call throws. -/
structure Env where
  startSession : Option String
  checkSessionStatus : String → Option Bool
  uploadAudio : Option String
  getPersonaReply : Option ReplyResult
  generateTTS : Option TtsResult
  endSession : String → Option Unit

/-- An `Audio` element: its source URL, playback position, paused flag, and
the allocation generation at which `new Audio(url)` created it (object
identity made observable). -/
structure AudioObj where
  url : String
  currentTime : Nat
  paused : Bool
  gen : Nat
deriving Repr, DecidableEq

/-- Playback-controller state: `currentAudioRef` (the loaded element),
`currentAudioUrlRef` (the string ref, `""` when cleared), the `playingKey`
React state, and the allocation counter for fresh `Audio` elements. -/
structure PlayerState where
  loadedAudio : Option AudioObj
  loadedUrl : String
  playingKey : String
  nextGen : Nat
deriving Repr, DecidableEq

/-- `stopCurrentAudio`: pause and rewind the loaded element if any, clear the
playing key and the URL ref (the element itself is kept). -/
def stopCurrentAudio (st : PlayerState) : PlayerState :=
  let st :=
    match st.loadedAudio with
    | some a => { st with loadedAudio := some { a with paused := true, currentTime := 0 } }
    | none => st
  { st with playingKey := "", loadedUrl := "" }

/-- `playAudio(url, bubbleKey)`: no-op on a falsy URL; restart from zero when
the requested URL is the loaded one; otherwise stop the current element, make
a fresh `Audio(url)` and play it, updating the refs and the playing key. -/
def playAudio (url : String) (bubbleKey : String) (st : PlayerState) : PlayerState :=
  if url = "" then st
  else
    match st.loadedAudio with
    | some a =>
      if st.loadedUrl = url then
        { st with loadedAudio := some { a with currentTime := 0, paused := false },
                  playingKey := bubbleKey }
      else
        let st := stopCurrentAudio st
        { st with loadedAudio := some { url := url, currentTime := 0, paused := false, gen := st.nextGen },
                  loadedUrl := url, playingKey := bubbleKey, nextGen := st.nextGen + 1 }
    | none =>
      let st := stopCurrentAudio st
      { st with loadedAudio := some { url := url, currentTime := 0, paused := false, gen := st.nextGen },
                loadedUrl := url, playingKey := bubbleKey, nextGen := st.nextGen + 1 }

/-- The `audio.onended` handler installed by `playAudio`: clears the playing
key and the URL ref (`currentAudioUrlRef.current = ''`) when playback
completes naturally. -/
def onEnded (st : PlayerState) : PlayerState :=
  { st with playingKey := "", loadedUrl := "" }

/-- Full controller state of the interview screen: the React state plus the
hot refs it mirrors, the turn list, and the playback sub-state. -/
structure ScreenState where
  processing : Bool
  personaTyping : Bool
  sessionId : Option String
  sessionActive : Bool
  isRecording : Bool
  interviewTurns : List Turn
  errorMsg : Option String
  player : PlayerState
  userBlobUrls : List String

/-- `initializeSession`: call `apiService.startSession`; on success store the
id and mark the session active, on a throw set the error and leave the
session state alone. Returns the id (or `none`), the new state, and the
number of start-session invocations made (always 1 here). -/
def initializeSession (env : Env) (s : ScreenState) : Option String × ScreenState × Nat :=
  match env.startSession with
  | some sid => (some sid, { s with sessionId := some sid, sessionActive := true }, 1)
  | none => (none, { s with errorMsg := some "Failed to initialize interview session" }, 1)

/-- `ensureSession`: reuse the held id when the status check reports it
active; on a missing id, an inactive report, or a status-check throw, fall
back to `initializeSession`. Third component counts start-session calls. -/
def ensureSession (env : Env) (s : ScreenState) : Option String × ScreenState × Nat :=
  match s.sessionId with
  | none => initializeSession env s
  | some id =>
    match env.checkSessionStatus id with
    | some active => if active then (some id, s, 0) else initializeSession env s
    | none => initializeSession env s

/-- `endSessionCleanup`: no-op without a held id; otherwise best-effort remote
end call (result and any throw discarded by `try {} catch {}`), then clear
the local session state. -/
def endSessionCleanup (env : Env) (s : ScreenState) : ScreenState :=
  match s.sessionId with
  | none => s
  | some id =>
    let _ := env.endSession id
    { s with sessionActive := false, sessionId := none }

/-- Deterministic model of `base64ToBlob`: the blob is identified by its
decoded payload, which we keep as the base64 text itself (contents never
inspected by the controller). -/
def base64ToBlob (base64 : String) (mimeType : String) : String :=
  base64 ++ ";" ++ mimeType

/-- Deterministic model of `URL.createObjectURL`. -/
def createObjectURL (blobData : String) : String :=
  "blob:" ++ blobData

/-- First-match in-place patch: walk the list, replace the first turn whose id
matches with `f idx turn` (model of `findIndex` + copy-and-set). -/
def patchFirst (turnId : String) (f : Nat → Turn → Turn) : Nat → List Turn → List Turn
  | _, [] => []
  | i, t :: ts =>
    if t.id = turnId then f i t :: ts else t :: patchFirst turnId f (i + 1) ts

/-- Stage 6 of the pipeline: patch the turn matched by its local id with the
persona reply, the resolved audio URL, and the server turn number
(`replyResult.turn_number || idx + 1` — falsy server numbers fall back to the
positional index). -/
def patchTurns (turns : List Turn) (turnId : String) (reply : String)
    (personaAudioUrl : Option String) (tn : Option Nat) : List Turn :=
  patchFirst turnId
    (fun idx t =>
      { t with persona_response := reply,
               persona_audio_url := personaAudioUrl,
               turn_number := some (match tn with
                 | some n => if n = 0 then idx + 1 else n
                 | none => idx + 1) })
    0 turns

/-- A character stripped by JavaScript `String.prototype.trim` (the
whitespace kinds that occur in transcripts). -/
def isJsSpace (c : Char) : Bool :=
  c = ' ' || c = '\t' || c = '\n' || c = '\r'

/-- Model of JavaScript `.trim()`: strip leading and trailing whitespace. -/
def jsTrim (s : String) : String :=
  String.mk (((s.data.dropWhile isJsSpace).reverse.dropWhile isJsSpace).reverse)

/-- The `finally` block of `processAudio`: stop the typing indicator and clear
the processing flag (runs on every exit path, early returns included). -/
def finallyStep (s : ScreenState) : ScreenState :=
  { s with personaTyping := false, processing := false }

/-- The `catch` block of `processAudio`: a single transient error message. -/
def catchStep (s : ScreenState) : ScreenState :=
  { s with errorMsg := some "Failed to process audio" }

/-- `processAudio(audioBlob, userAudioUrl)`: the whole per-utterance pipeline.
`turnId` is the fresh local id from `makeTurnId()`, `now` the timestamp.
Stages: ensure session, transcribe, append the optimistic user turn, fetch
the persona reply, synthesize speech (base64 or URL), patch the turn by id,
autoplay. A throw at any awaited call jumps to `catchStep`; `finallyStep`
always runs. -/
def processAudio (env : Env) (turnId : String) (now : String)
    (userAudioUrl : Option String) (s : ScreenState) : ScreenState :=
  let s := { s with processing := true }
  match ensureSession env s with
  | (none, s, _) =>
    finallyStep { s with errorMsg := some "Could not start interview session.", processing := false }
  | (some _, s, _) =>
    match env.uploadAudio with
    | none => finallyStep (catchStep s)
    | some transcript =>
      let text := jsTrim transcript
      if text = "" then
        finallyStep { s with errorMsg := some "No speech detected. Please try again.", processing := false }
      else
        let baseTurn : Turn :=
          { id := turnId, student_question := text, student_audio_url := userAudioUrl,
            persona_response := "", persona_audio_url := none, turn_number := none,
            timestamp := now }
        let s := { s with interviewTurns := s.interviewTurns ++ [baseTurn] }
        let s := { s with personaTyping := true }
        match env.getPersonaReply with
        | none => finallyStep (catchStep s)
        | some replyResult =>
          let reply := jsTrim (replyResult.reply.getD "")
          let ttsStage : Option (Option String × ScreenState) :=
            if reply = "" then some (none, s)
            else
              match env.generateTTS with
              | none => none
              | some ttsResult =>
                match ttsResult.audio_base64 with
                | some b64 =>
                  let u := createObjectURL (base64ToBlob b64 "audio/mpeg")
                  some (some u, { s with userBlobUrls := s.userBlobUrls ++ [u] })
                | none => some (ttsResult.audio_url, s)
          match ttsStage with
          | none => finallyStep (catchStep s)
          | some (personaAudioUrl, s) =>
            let newTurns :=
              patchTurns s.interviewTurns turnId reply personaAudioUrl replyResult.turn_number
            let s := { s with interviewTurns := newTurns }
            let s :=
              match personaAudioUrl with
              | some u => { s with player := playAudio u ("p-" ++ turnId) s.player }
              | none => s
            finallyStep s

/-- A push-to-talk transition emitted by the key handler: the call into
`startRecording` or `stopRecording`. -/
inductive Transition where
  | startRec
  | stopRec
deriving Repr, DecidableEq

/-- A browser key event as seen by the handlers: a key-down carries whether
the key is the spacebar and whether the event target is an editable control;
a key-up carries whether the key is the spacebar. -/
inductive PTEvent where
  | keyDown (isSpace : Bool) (editable : Bool)
  | keyUp (isSpace : Bool)
deriving Repr, DecidableEq

/-- State read and written by the push-to-talk handlers: the physical
`spaceIsDownRef` flag and the mirrored `processing` / `sessionActive` /
`isRecording` refs. -/
structure KeyState where
  spaceIsDown : Bool
  processing : Bool
  sessionActive : Bool
  isRecording : Bool
deriving Repr, DecidableEq

/-- One key event through `onKeyDown` / `onKeyUp`: returns the new state and
the transition emitted, if any. Key-down on a non-space key or into an
editable target is ignored; a repeat while `spaceIsDown` is set emits
nothing; the processing / inactive-session guard also emits nothing (but
still marks the key as down); otherwise the logical recording state toggles.
Key-up only clears the physical flag. -/
def keyStep (st : KeyState) : PTEvent → KeyState × Option Transition
  | .keyDown isSpace editable =>
    if !isSpace || editable then (st, none)
    else if st.spaceIsDown then (st, none)
    else
      let st := { st with spaceIsDown := true }
      if st.processing || !st.sessionActive then (st, none)
      else if st.isRecording then ({ st with isRecording := false }, some .stopRec)
      else ({ st with isRecording := true }, some .startRec)
  | .keyUp isSpace =>
    if isSpace then ({ st with spaceIsDown := false }, none) else (st, none)

/-- Run a sequence of key events, collecting every emitted transition in
order. -/
def keyRun (st : KeyState) : List PTEvent → KeyState × List Transition
  | [] => (st, [])
  | e :: es =>
    let (st1, t) := keyStep st e
    let (st2, ts) := keyRun st1 es
    (st2, (t.toList) ++ ts)

/-- Whether an event is a space key-up — the only event that clears the
physical `spaceIsDownRef` flag. -/
def isSpaceKeyUp : PTEvent → Bool
  | .keyUp isSpace => isSpace
  | _ => false

end Interview

namespace Feedback

/-- One entry of `report.scores` (`Object.values` order). `category_id` is a
string as the claim requires; `score` is `none` for an absent/null score field
(numeric values kept as integers — the controller never computes on them). -/
structure ScoreEntry where
  category_id : String
  score : Option Int
  level : Option String
  weight : Option Int
  description : Option String
  evidence : Option (List String)
  suggestions : Option (List String)
deriving Repr, DecidableEq

/-- The raw feedback report as received from the service. List-typed fields
are `none` when absent or not an array (`Array.isArray` fails). -/
structure Report where
  scores : Option (List ScoreEntry)
  strengths : Option (List String)
  improvements : Option (List String)
  quote_highlights : Option (List String)
  overall_score : Option Int
  overall_level : Option String
  overall_summary : Option String
  total_turns : Option Nat
  duration_seconds : Option Nat
deriving Repr, DecidableEq

/-- One normalized category record. -/
structure Category where
  id : String
  name : String
  score : Int
  level : Option String
  weight : Option Int
  description : Option String
  evidence : List String
  suggestions : List String
deriving Repr, DecidableEq

/-- The `overall` sub-object of the normalized report. -/
structure Overall where
  score : Option Int
  level : Option String
  summary : Option String
  totalTurns : Option Nat
  durationSeconds : Option Nat
deriving Repr, DecidableEq

/-- The normalized report shape produced by `normalizeReport`. -/
structure NormalReport where
  categories : List Category
  strengths : List String
  improvements : List String
  quotes : List String
  overall : Overall
deriving Repr, DecidableEq

/-- A JavaScript word character (`\w` = `[A-Za-z0-9_]`). -/
def isWordChar (c : Char) : Bool :=
  c.isAlpha || c.isDigit || c = '_'

/-- The second `replace` of `titleCase`: uppercase every character that starts
a word (`\b\w`), tracked by whether the previous character was a word
character. -/
def titleCaseGo : Bool → List Char → List Char
  | _, [] => []
  | prevWord, c :: cs =>
    (if isWordChar c && !prevWord then c.toUpper else c) :: titleCaseGo (isWordChar c) cs

/-- `titleCase`: replace underscores with spaces, then uppercase the first
character of every word. -/
def titleCase (s : String) : String :=
  let spaced := s.data.map (fun c => if c = '_' then ' ' else c)
  String.mk (titleCaseGo false spaced)

/-- The empty `overall` object (`{}`). -/
def emptyOverall : Overall :=
  { score := none, level := none, summary := none, totalTurns := none, durationSeconds := none }

/-- `normalizeReport` (`src/adapters/feedback.js`): a null/undefined report
maps to the empty shape; otherwise categories come from
`Object.values(report.scores || {})` with `Number(s.score || 0)` score and
defaulted evidence/suggestions, the three list fields keep the input only
when it is an array, and `overall` repackages the scalar fields. -/
def normalizeReport (report : Option Report) : NormalReport :=
  match report with
  | none =>
    { categories := [], strengths := [], improvements := [], quotes := [],
      overall := emptyOverall }
  | some r =>
    let categories := (r.scores.getD []).map (fun s =>
      { id := s.category_id
        name := titleCase s.category_id
        score := match s.score with
          | some v => if v = 0 then 0 else v
          | none => 0
        level := s.level
        weight := s.weight
        description := s.description
        evidence := s.evidence.getD []
        suggestions := s.suggestions.getD [] : Category })
    { categories := categories
      strengths := r.strengths.getD []
      improvements := r.improvements.getD []
      quotes := r.quote_highlights.getD []
      overall :=
        { score := r.overall_score, level := r.overall_level,
          summary := r.overall_summary, totalTurns := r.total_turns,
          durationSeconds := r.duration_seconds } }

end Feedback

namespace Interview

/-- A healthy service environment: every remote operation succeeds. -/
def sampleEnv : Env :=
  { startSession := some "s1", checkSessionStatus := fun _ => some true,
    uploadAudio := some "What motivates you?",
    getPersonaReply := some { reply := some "I value helping others.", turn_number := some 1 },
    generateTTS := some { audio_base64 := some "QUJD", audio_url := none },
    endSession := fun _ => some () }

/-- An environment in which every remote operation throws. -/
def failEnv : Env :=
  { startSession := none, checkSessionStatus := fun _ => none,
    uploadAudio := none, getPersonaReply := none, generateTTS := none,
    endSession := fun _ => none }

/-- Playback controller state at screen mount. -/
def samplePlayer : PlayerState :=
  { loadedAudio := none, loadedUrl := "", playingKey := "", nextGen := 0 }

/-- Screen state with an active held session and no turns yet. -/
def sampleState : ScreenState :=
  { processing := false, personaTyping := false, sessionId := some "s1",
    sessionActive := true, isRecording := false, interviewTurns := [],
    errorMsg := none, player := samplePlayer, userBlobUrls := [] }

/-- Healthy environment except that transcription hears only whitespace. -/
def blankSpeechEnv : Env :=
  { sampleEnv with uploadAudio := some "   " }

/-- Healthy environment except that the persona-reply call throws. -/
def replyThrowEnv : Env :=
  { sampleEnv with uploadAudio := some "Hello", getPersonaReply := none }

/-- Environment with a successful reply `"Good question"` whose speech
synthesis call throws. -/
def ttsThrowEnv : Env :=
  { sampleEnv with
      uploadAudio := some "Hi",
      getPersonaReply := some { reply := some "Good question", turn_number := some 1 },
      generateTTS := none }

/-- Environment with a successful reply `"Good question"` whose speech
synthesis call returns, but with neither inline audio nor an audio URL. -/
def ttsNoAudioEnv : Env :=
  { sampleEnv with
      uploadAudio := some "Hi",
      getPersonaReply := some { reply := some "Good question", turn_number := some 1 },
      generateTTS := some { audio_base64 := none, audio_url := none } }

end Interview

namespace Interview

/-! Helper lemmas shared by several claim proofs. -/

/-- `ensureSession` never touches the turn list, the processing flag, the
playback sub-state, or the blob list: it only rewrites the session fields and
possibly the error message. -/
theorem ensureSession_preserves (env : Env) (s : ScreenState) :
    ((ensureSession env s).2.1).interviewTurns = s.interviewTurns ∧
    ((ensureSession env s).2.1).processing = s.processing ∧
    ((ensureSession env s).2.1).player = s.player ∧
    ((ensureSession env s).2.1).userBlobUrls = s.userBlobUrls := by
  unfold ensureSession initializeSession
  cases hs : s.sessionId with
  | none => cases hstart : env.startSession <;> simp [hstart]
  | some id =>
    cases hc : env.checkSessionStatus id with
    | none => cases hstart : env.startSession <;> simp [hc, hstart]
    | some active =>
      cases active <;> cases hstart : env.startSession <;> simp [hc, hstart]

/-- The restart branch of `playAudio`: the loaded element is reused, rewound
and played; no allocation happens. -/
theorem playAudio_restart (st : PlayerState) (a : AudioObj) (url key : String)
    (hurl : ¬ url = "") (ha : st.loadedAudio = some a) (hl : st.loadedUrl = url) :
    playAudio url key st =
      { st with loadedAudio := some { a with currentTime := 0, paused := false },
                playingKey := key } := by
  simp [playAudio, hurl, ha, hl]

/-- The reload branch of `playAudio`: the previous element is stopped, a fresh
element is allocated (generation counter advances) and played. -/
theorem playAudio_reload (st : PlayerState) (url key : String)
    (hurl : ¬ url = "") (h : st.loadedAudio = none ∨ ¬ st.loadedUrl = url) :
    playAudio url key st =
      { stopCurrentAudio st with
          loadedAudio := some { url := url, currentTime := 0, paused := false, gen := st.nextGen },
          loadedUrl := url, playingKey := key, nextGen := st.nextGen + 1 } := by
  cases ha : st.loadedAudio with
  | none => simp [playAudio, hurl, ha, stopCurrentAudio]
  | some a =>
    have hl : ¬ st.loadedUrl = url := by
      rcases h with h | h
      · rw [ha] at h; exact absurd h (by simp)
      · exact h
    simp [playAudio, hurl, ha, hl, stopCurrentAudio]

/-- A key event that is not a space key-up, arriving while the space key is
physically down, is fully ignored: state unchanged, nothing emitted. -/
theorem keyStep_held (st : KeyState) (e : PTEvent) (hdown : st.spaceIsDown = true)
    (hne : isSpaceKeyUp e = false) : keyStep st e = (st, none) := by
  cases e with
  | keyDown isSpace editable =>
    cases hc : (!isSpace || editable) <;> simp [keyStep, hc, hdown]
  | keyUp isSpace =>
    simp [isSpaceKeyUp] at hne
    simp [keyStep, hne]

end Interview

namespace Interview

/-- C4: when a session id is held and the status check reports it active, two
consecutive `ensureSession` calls invoke the start-session operation zero
times (invocation counters are both 0) and both calls return the held id with
the state unchanged. -/
theorem ensureSession_idempotent_on_active (env : Env) (s : ScreenState) (id : String)
    (hid : s.sessionId = some id) (hact : env.checkSessionStatus id = some true) :
    ensureSession env s = (some id, s, 0) ∧
    ensureSession env ((ensureSession env s).2.1) = (some id, s, 0) := by
  have h1 : ensureSession env s = (some id, s, 0) := by
    simp [ensureSession, hid, hact]
  exact ⟨h1, by rw [h1]; exact h1⟩

theorem ensureSession_idempotent_on_active_witness :
    ensureSession sampleEnv sampleState = (some "s1", sampleState, 0) ∧
    ensureSession sampleEnv ((ensureSession sampleEnv sampleState).2.1) =
      (some "s1", sampleState, 0) :=
  ensureSession_idempotent_on_active sampleEnv sampleState "s1" rfl rfl

/-- C5: whenever a session id is held, `endSessionCleanup` clears the local
session state (id to `none`, inactive), and its result does not depend on the
remote end-session outcome — a remote throw is swallowed, never propagated. -/
theorem endSessionCleanup_always_clears (env env2 : Env) (s : ScreenState) (id : String)
    (hid : s.sessionId = some id) :
    (endSessionCleanup env s).sessionId = none ∧
    (endSessionCleanup env s).sessionActive = false ∧
    endSessionCleanup env s = endSessionCleanup env2 s := by
  simp [endSessionCleanup, hid]

theorem endSessionCleanup_always_clears_witness :
    (endSessionCleanup sampleEnv sampleState).sessionId = none ∧
    (endSessionCleanup sampleEnv sampleState).sessionActive = false ∧
    endSessionCleanup sampleEnv sampleState = endSessionCleanup failEnv sampleState :=
  endSessionCleanup_always_clears sampleEnv failEnv sampleState "s1" rfl

/-- C6: `play(ref, key)` with the already-loaded reference restarts the same
element from position zero (no new allocation) and sets the now-playing key;
with a different reference it first stops the current element, then allocates
and plays the new one, updating the refs and the now-playing key. -/
theorem playAudio_restart_or_switch (st : PlayerState) (a : AudioObj) (url key : String)
    (hurl : ¬ url = "") :
    (st.loadedAudio = some a → st.loadedUrl = url →
      playAudio url key st =
        { st with loadedAudio := some { a with currentTime := 0, paused := false },
                  playingKey := key }) ∧
    (¬ st.loadedUrl = url →
      playAudio url key st =
        { stopCurrentAudio st with
            loadedAudio := some { url := url, currentTime := 0, paused := false, gen := st.nextGen },
            loadedUrl := url, playingKey := key, nextGen := st.nextGen + 1 }) :=
  ⟨fun ha hl => playAudio_restart st a url key hurl ha hl,
   fun hl => playAudio_reload st url key hurl (Or.inr hl)⟩

theorem playAudio_restart_or_switch_witness :
    playAudio "u1" "p-7" ⟨some ⟨"u1", 5, true, 0⟩, "u1", "", 1⟩ =
      ⟨some ⟨"u1", 0, false, 0⟩, "u1", "p-7", 1⟩ ∧
    playAudio "u2" "p-8" ⟨some ⟨"u1", 5, false, 0⟩, "u1", "p-7", 1⟩ =
      ⟨some ⟨"u2", 0, false, 1⟩, "u2", "p-8", 2⟩ := by
  constructor
  · exact (playAudio_restart_or_switch ⟨some ⟨"u1", 5, true, 0⟩, "u1", "", 1⟩
      ⟨"u1", 5, true, 0⟩ "u1" "p-7" (by decide)).1 rfl rfl
  · exact ((playAudio_restart_or_switch ⟨some ⟨"u1", 5, false, 0⟩, "u1", "p-7", 1⟩
      ⟨"u1", 5, false, 0⟩ "u2" "p-8" (by decide)).2 (by decide)).trans (by decide)

/-- C7 counterexample: after natural completion of `"u"` (key `p-7`), playing
the same reference again does NOT take the restart path: the completion
handler cleared the URL ref, so a brand-new element (generation 1) is
allocated — the old generation-0 element is not reused. -/
theorem onEnded_replay_reloads_cex :
    (onEnded ⟨some ⟨"u", 3, false, 0⟩, "u", "p-7", 1⟩).playingKey = "" ∧
    (playAudio "u" "p-7" (onEnded ⟨some ⟨"u", 3, false, 0⟩, "u", "p-7", 1⟩)).loadedAudio =
      some ⟨"u", 0, false, 1⟩ ∧
    ¬ (playAudio "u" "p-7" (onEnded ⟨some ⟨"u", 3, false, 0⟩, "u", "p-7", 1⟩)).loadedAudio =
      some ⟨"u", 0, false, 0⟩ ∧
    (playAudio "u" "p-7" (onEnded ⟨some ⟨"u", 3, false, 0⟩, "u", "p-7", 1⟩)).nextGen = 2 := by
  decide

/-- C7 (amended): on natural completion the handler clears the now-playing key
AND the loaded-URL ref, while the element itself stays referenced; therefore a
subsequent play of the same reference takes the reload path — it stops the
held element and allocates a fresh one — not the cheap restart path. -/
theorem onEnded_clears_key_then_replay_reloads (st : PlayerState) (a : AudioObj) (key : String)
    (ha : st.loadedAudio = some a) (hurl : ¬ a.url = "") :
    (onEnded st).playingKey = "" ∧
    (onEnded st).loadedAudio = some a ∧
    (onEnded st).loadedUrl = "" ∧
    playAudio a.url key (onEnded st) =
      { stopCurrentAudio (onEnded st) with
          loadedAudio := some { url := a.url, currentTime := 0, paused := false, gen := st.nextGen },
          loadedUrl := a.url, playingKey := key, nextGen := st.nextGen + 1 } := by
  refine ⟨rfl, by simp [onEnded, ha], rfl, ?_⟩
  exact playAudio_reload (onEnded st) a.url key hurl
    (Or.inr (fun h => hurl (by simpa [onEnded] using h.symm)))

theorem onEnded_clears_key_then_replay_reloads_witness :
    (onEnded ⟨some ⟨"u", 3, false, 0⟩, "u", "p-7", 1⟩).playingKey = "" ∧
    (onEnded ⟨some ⟨"u", 3, false, 0⟩, "u", "p-7", 1⟩).loadedAudio = some ⟨"u", 3, false, 0⟩ ∧
    (onEnded ⟨some ⟨"u", 3, false, 0⟩, "u", "p-7", 1⟩).loadedUrl = "" ∧
    playAudio "u" "p-7" (onEnded ⟨some ⟨"u", 3, false, 0⟩, "u", "p-7", 1⟩) =
      { stopCurrentAudio (onEnded ⟨some ⟨"u", 3, false, 0⟩, "u", "p-7", 1⟩) with
          loadedAudio := some ⟨"u", 0, false, 1⟩,
          loadedUrl := "u", playingKey := "p-7", nextGen := 2 } :=
  onEnded_clears_key_then_replay_reloads ⟨some ⟨"u", 3, false, 0⟩, "u", "p-7", 1⟩
    ⟨"u", 3, false, 0⟩ "p-7" rfl (by decide)

/-- C8: while the push-to-talk key is physically held (`spaceIsDownRef` set)
and no space key-up arrives, any sequence of further key events emits no
start/stop transition at all and leaves the key marked as held — a new
transition needs a release first. -/
theorem keyRun_no_retrigger_while_held (st : KeyState) (es : List PTEvent)
    (hdown : st.spaceIsDown = true)
    (hno : ∀ e ∈ es, isSpaceKeyUp e = false) :
    (keyRun st es).2 = [] ∧ (keyRun st es).1.spaceIsDown = true := by
  induction es with
  | nil => exact ⟨rfl, hdown⟩
  | cons e es ih =>
    have h1 : keyStep st e = (st, none) := keyStep_held st e hdown (hno e (by simp))
    have h2 := ih (fun x hx => hno x (by simp [hx]))
    simpa [keyRun, h1] using h2

theorem keyRun_no_retrigger_while_held_witness :
    (keyRun ⟨true, false, true, true⟩
      [.keyDown true false, .keyDown true false, .keyUp false]).2 = [] ∧
    (keyRun ⟨true, false, true, true⟩
      [.keyDown true false, .keyDown true false, .keyUp false]).1.spaceIsDown = true :=
  keyRun_no_retrigger_while_held ⟨true, false, true, true⟩
    [.keyDown true false, .keyDown true false, .keyUp false] rfl (by decide)

end Interview

namespace Interview

/-- C2: whenever transcription returns an empty or whitespace-only string,
the pipeline run leaves the turn sequence unchanged and ends with the
processing flag false. -/
theorem processAudio_blank_speech_no_turn (env : Env) (turnId now : String)
    (userAudioUrl : Option String) (s : ScreenState) (tr : String)
    (hup : env.uploadAudio = some tr) (htr : jsTrim tr = "") :
    (processAudio env turnId now userAudioUrl s).interviewTurns = s.interviewTurns ∧
    (processAudio env turnId now userAudioUrl s).processing = false := by
  rcases hE : ensureSession env { s with processing := true } with ⟨idOpt, s2, n⟩
  have hpre : s2.interviewTurns = s.interviewTurns := by
    have h := (ensureSession_preserves env { s with processing := true }).1
    rw [hE] at h
    simpa using h
  simp only [processAudio]
  rw [hE]
  cases idOpt with
  | none => simp [finallyStep, hpre]
  | some id => simp [hup, htr, finallyStep, hpre]

theorem processAudio_blank_speech_no_turn_witness :
    (processAudio blankSpeechEnv "t1" "now" (some "u") sampleState).interviewTurns =
      sampleState.interviewTurns ∧
    (processAudio blankSpeechEnv "t1" "now" (some "u") sampleState).processing = false :=
  processAudio_blank_speech_no_turn blankSpeechEnv "t1" "now" (some "u") sampleState
    "   " rfl (by decide)

/-- C3: starting from an empty turn sequence, with an active held session,
transcription `"Hello"`, and a persona-reply call that throws, the run ends
(no unhandled exception: the error is converted to the transient message)
with exactly one Turn holding student text `"Hello"` and empty persona text,
and the processing flag false. -/
theorem processAudio_reply_throw_partial_turn (env : Env) (turnId now sid : String)
    (userAudioUrl : Option String) (s : ScreenState)
    (hturns : s.interviewTurns = [])
    (hsid : s.sessionId = some sid) (hact : env.checkSessionStatus sid = some true)
    (hup : env.uploadAudio = some "Hello")
    (hrep : env.getPersonaReply = none) :
    (processAudio env turnId now userAudioUrl s).interviewTurns =
      [{ id := turnId, student_question := "Hello", student_audio_url := userAudioUrl,
         persona_response := "", persona_audio_url := none, turn_number := none,
         timestamp := now }] ∧
    (processAudio env turnId now userAudioUrl s).processing = false ∧
    (processAudio env turnId now userAudioUrl s).errorMsg = some "Failed to process audio" := by
  have hE : ensureSession env { s with processing := true } =
      (some sid, { s with processing := true }, 0) := by
    simp [ensureSession, hsid, hact]
  have ht : jsTrim "Hello" = "Hello" := by decide
  have hne : ¬ ("Hello" : String) = "" := by decide
  simp only [processAudio]
  rw [hE]
  simp [hup, hrep, ht, hne, finallyStep, catchStep, hturns]

theorem processAudio_reply_throw_partial_turn_witness :
    (processAudio replyThrowEnv "t1" "now" (some "u") sampleState).interviewTurns =
      [{ id := "t1", student_question := "Hello", student_audio_url := some "u",
         persona_response := "", persona_audio_url := none, turn_number := none,
         timestamp := "now" }] ∧
    (processAudio replyThrowEnv "t1" "now" (some "u") sampleState).processing = false ∧
    (processAudio replyThrowEnv "t1" "now" (some "u") sampleState).errorMsg =
      some "Failed to process audio" :=
  processAudio_reply_throw_partial_turn replyThrowEnv "t1" "now" "s1" (some "u")
    sampleState rfl rfl rfl rfl rfl

end Interview

namespace Interview

/-- C1 counterexample: with a healthy session, transcript `"Hi"` and reply
`"Good question"`, a speech-synthesis call that throws jumps to the pipeline's
error handler before the patch step: the committed Turn keeps an empty
persona text (it is NOT updated with the reply), and the generic error is
set. -/
theorem processAudio_tts_throw_cex :
    (processAudio ttsThrowEnv "t1" "now" (some "u") sampleState).interviewTurns =
      [{ id := "t1", student_question := "Hi", student_audio_url := some "u",
         persona_response := "", persona_audio_url := none, turn_number := none,
         timestamp := "now" }] ∧
    ¬ ((processAudio ttsThrowEnv "t1" "now" (some "u") sampleState).interviewTurns.map
        Turn.persona_response = ["Good question"]) ∧
    (processAudio ttsThrowEnv "t1" "now" (some "u") sampleState).errorMsg =
      some "Failed to process audio" := by
  decide

/-- C1 (amended): after a non-empty reply, a synthesis call that *returns*
without playable audio is soft — the Turn is still updated in place with the
reply text and a null audio reference; a synthesis call that *throws*,
however, aborts to the error handler before the patch step, so the Turn keeps
empty persona text and null audio, the transient error is set, and processing
ends false. -/
theorem processAudio_tts_soft_vs_throw (env : Env) (turnId now sid tr : String)
    (userAudioUrl : Option String) (s : ScreenState) (rep : ReplyResult)
    (hturns : s.interviewTurns = [])
    (hsid : s.sessionId = some sid) (hact : env.checkSessionStatus sid = some true)
    (hup : env.uploadAudio = some tr) (htr : ¬ jsTrim tr = "")
    (hrep : env.getPersonaReply = some rep)
    (hr : ¬ jsTrim (rep.reply.getD "") = "") :
    (env.generateTTS = some { audio_base64 := none, audio_url := none } →
      (processAudio env turnId now userAudioUrl s).interviewTurns =
        [{ id := turnId, student_question := jsTrim tr, student_audio_url := userAudioUrl,
           persona_response := jsTrim (rep.reply.getD ""), persona_audio_url := none,
           turn_number := some (match rep.turn_number with
             | some n => if n = 0 then 1 else n
             | none => 1),
           timestamp := now }] ∧
      (processAudio env turnId now userAudioUrl s).processing = false) ∧
    (env.generateTTS = none →
      (processAudio env turnId now userAudioUrl s).interviewTurns =
        [{ id := turnId, student_question := jsTrim tr, student_audio_url := userAudioUrl,
           persona_response := "", persona_audio_url := none, turn_number := none,
           timestamp := now }] ∧
      (processAudio env turnId now userAudioUrl s).errorMsg =
        some "Failed to process audio" ∧
      (processAudio env turnId now userAudioUrl s).processing = false) := by
  have hE : ensureSession env { s with processing := true } =
      (some sid, { s with processing := true }, 0) := by
    simp [ensureSession, hsid, hact]
  constructor
  · intro htts
    simp only [processAudio]
    rw [hE]
    simp [hup, htr, hrep, hr, htts, patchTurns, patchFirst, finallyStep, hturns]
  · intro htts
    simp only [processAudio]
    rw [hE]
    simp [hup, htr, hrep, hr, htts, finallyStep, catchStep, hturns]

theorem processAudio_tts_soft_vs_throw_witness :
    (processAudio ttsNoAudioEnv "t1" "now" (some "u") sampleState).interviewTurns =
      [{ id := "t1", student_question := "Hi", student_audio_url := some "u",
         persona_response := "Good question", persona_audio_url := none,
         turn_number := some 1, timestamp := "now" }] ∧
    (processAudio ttsNoAudioEnv "t1" "now" (some "u") sampleState).processing = false := by
  have h := (processAudio_tts_soft_vs_throw ttsNoAudioEnv "t1" "now" "s1" "Hi" (some "u")
    sampleState { reply := some "Good question", turn_number := some 1 }
    rfl rfl rfl rfl (by decide) rfl (by decide)).1 rfl
  exact ⟨h.1.trans (by decide), h.2⟩

end Interview

namespace Feedback

/-- C10: `normalizeReport` is total (it cannot throw when every scores entry
carries a string `category_id`); a null/undefined report yields exactly the
empty shape; for any other report the `strengths`, `improvements` and
`quotes` outputs equal the input field when it is an array and `[]`
otherwise, and every category score is the input score with missing/falsy
values mapped to 0. -/
theorem normalizeReport_total_shape :
    normalizeReport none =
      { categories := [], strengths := [], improvements := [], quotes := [],
        overall := emptyOverall } ∧
    ∀ r : Report,
      (normalizeReport (some r)).strengths = r.strengths.getD [] ∧
      (normalizeReport (some r)).improvements = r.improvements.getD [] ∧
      (normalizeReport (some r)).quotes = r.quote_highlights.getD [] ∧
      (normalizeReport (some r)).categories.map Category.score =
        (r.scores.getD []).map (fun e => e.score.getD 0) := by
  refine ⟨rfl, fun r => ⟨rfl, rfl, rfl, ?_⟩⟩
  simp only [normalizeReport, List.map_map]
  induction r.scores.getD [] with
  | nil => rfl
  | cons e l ih =>
    simp only [List.map_cons, ih, Function.comp]
    refine congrArg₂ _ ?_ rfl
    cases he : e.score with
    | none => rfl
    | some v =>
      by_cases hv : v = 0
      · simp [hv]
      · simp [hv]

end Feedback

namespace Interview

/-- Patching by an id that no prefix element carries reaches exactly the
appended final element: the prefix is returned untouched. -/
theorem patchFirst_append_fresh (xs : List Turn) (b : Turn) (turnId : String)
    (f : Nat → Turn → Turn) (i : Nat)
    (hfresh : ∀ t ∈ xs, ¬ t.id = turnId) (hb : b.id = turnId) :
    patchFirst turnId f i (xs ++ [b]) = xs ++ [f (i + xs.length) b] := by
  induction xs generalizing i with
  | nil => simp [patchFirst, hb]
  | cons x xs ih =>
    have hx : ¬ x.id = turnId := hfresh x (by simp)
    have harith : i + 1 + xs.length = i + (xs.length + 1) := by omega
    rw [List.cons_append]
    simp only [patchFirst, if_neg hx,
      ih (i + 1) (fun t ht => hfresh t (by simp [ht])), harith]
    simp

/-- `patchTurns` on `xs ++ [b]` with an id fresh for `xs` and carried by `b`
keeps `xs` and rewrites only `b`; the rewritten turn keeps the id. -/
theorem patchTurns_append_fresh (xs : List Turn) (b : Turn) (turnId reply : String)
    (url : Option String) (tn : Option Nat)
    (hfresh : ∀ t ∈ xs, ¬ t.id = turnId) (hb : b.id = turnId) :
    ∃ t : Turn, patchTurns (xs ++ [b]) turnId reply url tn = xs ++ [t] ∧ t.id = turnId := by
  refine ⟨_, patchFirst_append_fresh xs b turnId _ 0 hfresh hb, ?_⟩
  simpa using hb

end Interview

namespace Interview

/-- C9: with a fresh local turn id, every pipeline run either leaves the turn
sequence unchanged or appends exactly one Turn at the end — the existing
prefix is never modified, deleted or reordered, and the persona-reply patch
lands only on the turn carrying the locally generated id. -/
theorem processAudio_append_only (env : Env) (turnId now : String)
    (userAudioUrl : Option String) (s : ScreenState)
    (hfresh : ∀ t ∈ s.interviewTurns, ¬ t.id = turnId) :
    (processAudio env turnId now userAudioUrl s).interviewTurns = s.interviewTurns ∨
    ∃ t : Turn, (processAudio env turnId now userAudioUrl s).interviewTurns =
        s.interviewTurns ++ [t] ∧ t.id = turnId := by
  rcases hE : ensureSession env { s with processing := true } with ⟨idOpt, s2, n⟩
  have hpre : s2.interviewTurns = s.interviewTurns := by
    have h := (ensureSession_preserves env { s with processing := true }).1
    rw [hE] at h
    simpa using h
  have hfresh2 : ∀ t ∈ s.interviewTurns, ¬ t.id = turnId := hfresh
  rw [← hpre] at hfresh2
  simp only [processAudio]
  rw [hE]
  cases idOpt with
  | none => left; simp [finallyStep, hpre]
  | some id =>
    cases hup : env.uploadAudio with
    | none => left; simp [finallyStep, catchStep, hpre]
    | some tr =>
      by_cases htr : jsTrim tr = ""
      · left; simp [htr, finallyStep, hpre]
      · cases hrep : env.getPersonaReply with
        | none =>
          right
          refine ⟨⟨turnId, jsTrim tr, userAudioUrl, "", none, none, now⟩, ?_, rfl⟩
          simp [htr, finallyStep, catchStep, hpre]
        | some rep =>
          by_cases hr : jsTrim (rep.reply.getD "") = ""
          · right
            obtain ⟨t, hpt, hid⟩ := patchTurns_append_fresh s2.interviewTurns
              ⟨turnId, jsTrim tr, userAudioUrl, "", none, none, now⟩
              turnId "" none rep.turn_number hfresh2 rfl
            rw [hpre] at hpt
            refine ⟨t, ?_, hid⟩
            simp [htr, hr, finallyStep, hpt, hpre]
          · cases htts : env.generateTTS with
            | none =>
              right
              refine ⟨⟨turnId, jsTrim tr, userAudioUrl, "", none, none, now⟩, ?_, rfl⟩
              simp [htr, hr, htts, finallyStep, catchStep, hpre]
            | some ttsR =>
              cases hb64 : ttsR.audio_base64 with
              | some b64 =>
                right
                obtain ⟨t, hpt, hid⟩ := patchTurns_append_fresh s2.interviewTurns
                  ⟨turnId, jsTrim tr, userAudioUrl, "", none, none, now⟩
                  turnId (jsTrim (rep.reply.getD ""))
                  (some (createObjectURL (base64ToBlob b64 "audio/mpeg")))
                  rep.turn_number hfresh2 rfl
                rw [hpre] at hpt
                refine ⟨t, ?_, hid⟩
                simp [htr, hr, htts, hb64, finallyStep, hpt, hpre]
              | none =>
                right
                obtain ⟨t, hpt, hid⟩ := patchTurns_append_fresh s2.interviewTurns
                  ⟨turnId, jsTrim tr, userAudioUrl, "", none, none, now⟩
                  turnId (jsTrim (rep.reply.getD "")) ttsR.audio_url
                  rep.turn_number hfresh2 rfl
                rw [hpre] at hpt
                refine ⟨t, ?_, hid⟩
                cases hurl : ttsR.audio_url with
                | none =>
                  rw [hurl] at hpt
                  simp [htr, hr, htts, hb64, hurl, finallyStep, hpt, hpre]
                | some u =>
                  rw [hurl] at hpt
                  simp [htr, hr, htts, hb64, hurl, finallyStep, hpt, hpre]

theorem processAudio_append_only_witness :
    (processAudio sampleEnv "t1" "now" (some "u") sampleState).interviewTurns =
      sampleState.interviewTurns ∨
    ∃ t : Turn, (processAudio sampleEnv "t1" "now" (some "u") sampleState).interviewTurns =
        sampleState.interviewTurns ++ [t] ∧ t.id = "t1" :=
  processAudio_append_only sampleEnv "t1" "now" (some "u") sampleState (by decide)

end Interview
